import Mathlib

/-!
Shallow embedding of the MeetMind smoke-test scripts.

`src/test-ui.py` drives a headless browser through a fixed sequence of page
visits, optional interactions and screenshot captures; `src/test_api.py`
issues a single HTTP POST and prints the status and the pretty-printed JSON
response.  Both scripts are straight-line code whose behaviour depends only
on the environment they observe (whether each navigation succeeds, how many
elements each selector matches, the console messages fired, the HTTP
response, the initial contents of the `screenshots/` directory).  We embed
each script as a pure function from that environment to the trace of
observable effects it performs (sessions opened/closed, navigations, clicks,
screenshots written, lines printed) together with its result
(`Except`-style: normal return or the uncaught Python exception).
-/

deriving instance DecidableEq for Except

/-! ### Python string primitives used by the scripts -/

/-- Membership of `needle` as a contiguous substring of `hay`, on the
character lists of the strings: Python's `needle in hay`. -/
def hasSub (hay needle : List Char) : Bool :=
  needle.isPrefixOf hay ||
    match hay with
    | [] => false
    | _ :: t => hasSub t needle

/-- Python's `needle in hay` on strings. -/
def pyIn (needle hay : String) : Bool :=
  hasSub hay.data needle.data

/-- Python's `s.lower()` (ASCII case folding, which covers the only needle
the script lowercases against, `"favicon"`). -/
def pyLower (s : String) : String :=
  String.mk (s.data.map Char.toLower)

/-- Python's `s.endswith(suffix)`. -/
def pyEndsWith (s suffix : String) : Bool :=
  suffix.data.isSuffixOf s.data

/-- Lexicographic comparison of character lists by code point, the order
Python uses to compare `str` values. -/
def charListLt : List Char → List Char → Bool
  | [], [] => false
  | [], _ :: _ => true
  | _ :: _, [] => false
  | a :: as, b :: bs =>
    if a.toNat < b.toNat then true
    else if b.toNat < a.toNat then false
    else charListLt as bs

/-- Python's `a < b` on strings. -/
def pyLt (a b : String) : Bool :=
  charListLt a.data b.data

/-- Insert a filename into a list sorted by the lexicographic string order,
the order Python's `sorted` uses on `str`. -/
def insertSorted (f : String) : List String → List String
  | [] => [f]
  | g :: t => if pyLt f g then f :: g :: t else g :: insertSorted f t

/-- Python's `sorted` on a list of strings (insertion sort). -/
def sortFiles : List String → List String
  | [] => []
  | f :: t => insertSorted f (sortFiles t)

/-- Writing file `f` into a directory: `page.screenshot(path=...)` creates
the file, or silently overwrites it when a file of that name exists, so the
directory listing gains `f` only if it was absent. -/
def fsWrite (fs : List String) (f : String) : List String :=
  if f ∈ fs then fs else fs ++ [f]

/-! ### Observable events of the UI script -/

/-- Observable effects of `test-ui.py`, in program order.  Session names
stand for the Playwright objects of the script: `"playwright"` (the
`sync_playwright()` driver), `"browser"`, `"context"`, `"page"`,
`"context_mobile"`, `"page_mobile"`.  `shot s f` records
`s.screenshot(path='screenshots/' + f)`; we keep the filename inside the
`screenshots/` directory. -/
inductive Ev where
  | openE (s : String)
  | closeE (s : String)
  | nav (s url : String)
  | click (s sel : String)
  | shot (s file : String)
  | print (line : String)
  deriving DecidableEq, Repr

/-- The uncaught Python exceptions the script can die of in this model:
a navigation error from `page.goto` and an `AssertionError` from the
`assert` on line 28. -/
inductive Err where
  | navError
  | assertFailed
  deriving DecidableEq, Repr

/-- A console message delivered to the `page.on('console', ...)` listener:
its `msg.type` and `msg.text`. -/
structure ConsoleMsg where
  type : String
  text : String
  deriving DecidableEq, Repr

/-- Everything `test-ui.py` observes from the outside world, in the order
the script queries it.  One Boolean per `page.goto` occurrence (line 22,
49, 69, 96, 102, 114): `true` when that navigation succeeds.  One count per
locator the script builds, a title string, the console messages fired
during the final navigation, and the initial contents of the
`screenshots/` directory. -/
structure Env where
  title : String
  meetmindTextCount : Nat
  recordBtnCount : Nat
  reviewTabCount : Nat
  parentTitleCount : Nat
  tabsCount : Nat
  teacherTitleCount : Nat
  viewsCount : Nat
  nav_home : Bool
  nav_parent : Bool
  nav_teacher : Bool
  nav_mobile_home : Bool
  nav_mobile_parent : Bool
  nav_console : Bool
  consoleMsgs : List ConsoleMsg
  preexisting : List String
  deriving Repr

/-! ### The UI script, section by section (source line numbers refer to
`src/test-ui.py`) -/

/-- The selector of line 38. -/
def reviewSel : String := "button:has-text(\"复习\"), [role=\"tab\"]:has-text(\"复习\")"

/-- The selector of line 60. -/
def tabsSel : String := "button:has-text(\"困惑点\"), button:has-text(\"任务\")"

/-- The selector of line 80. -/
def viewsSel : String := "button:has-text(\"学生详情\"), button:has-text(\"AI 反思\")"

/-- Line 28: `'MeetMind' in title or page.locator('text=MeetMind').count() > 0 or True`. -/
def assertCond (env : Env) : Bool :=
  pyIn "MeetMind" env.title || decide (0 < env.meetmindTextCount) || true

/-- Line 113: the listener appends `msg.text` exactly when `msg.type == 'error'`;
these are the texts collected in the `errors` list. -/
def capturedErrors (env : Env) : List String :=
  (env.consoleMsgs.filter (fun m => m.type == "error")).map (fun m => m.text)

/-- Line 118, the classification predicate: `'Error' in e and 'favicon' not in e.lower()`. -/
def isCriticalError (e : String) : Bool :=
  pyIn "Error" e && !(pyIn "favicon" (pyLower e))

/-- Line 118: `critical_errors = [e for e in errors if 'Error' in e and 'favicon' not in e.lower()]`. -/
def critical_errors (env : Env) : List String :=
  (capturedErrors env).filter isCriticalError

/-- Lines 10-16: enter `sync_playwright()`, launch the browser, create the
desktop context and page (`os.makedirs` only ensures the directory exists). -/
def prologue : List Ev :=
  [Ev.openE "playwright", Ev.openE "browser", Ev.openE "context", Ev.openE "page"]

/-- Lines 18-85: sections 1 (home page), 2 (mode switch), 3 (parent page)
and 4 (teacher page) on the desktop page.  Returns the events performed and
`some err` when an uncaught exception cut the section short. -/
def desktopPass (env : Env) : List Ev × Option Err :=
  let t := [Ev.print "🚀 开始测试 MeetMind...", Ev.print "\n1️⃣ 测试首页（录音模式）..."]
  if !env.nav_home then (t, some Err.navError) else
  let t := t ++ [Ev.nav "page" "http://localhost:3001", Ev.shot "page" "01-home-record.png"]
  if !assertCond env then (t, some Err.assertFailed) else
  let t := t ++ [Ev.print "   ✅ 首页加载成功"]
  let t := t ++ (if 0 < env.recordBtnCount then [Ev.print "   ✅ 录音按钮存在"] else [])
  let t := t ++ [Ev.print "\n2️⃣ 测试模式切换..."]
  let t := t ++ (if 0 < env.reviewTabCount then
      [Ev.click "page" reviewSel, Ev.shot "page" "02-home-review.png",
       Ev.print "   ✅ 复习模式切换成功"]
    else [Ev.print "   ⚠️ 未找到复习模式切换按钮"])
  let t := t ++ [Ev.print "\n3️⃣ 测试家长端..."]
  if !env.nav_parent then (t, some Err.navError) else
  let t := t ++ [Ev.nav "page" "http://localhost:3001/parent", Ev.shot "page" "03-parent.png"]
  let t := t ++ (if 0 < env.parentTitleCount then [Ev.print "   ✅ 家长端页面加载成功"] else [])
  let t := t ++ (if 0 < env.tabsCount then
      [Ev.click "page" tabsSel, Ev.shot "page" "03-parent-confusion.png",
       Ev.print "   ✅ 家长端标签页切换成功"]
    else [])
  let t := t ++ [Ev.print "\n4️⃣ 测试教师端..."]
  if !env.nav_teacher then (t, some Err.navError) else
  let t := t ++ [Ev.nav "page" "http://localhost:3001/teacher", Ev.shot "page" "04-teacher.png"]
  let t := t ++ (if 0 < env.teacherTitleCount then [Ev.print "   ✅ 教师端页面加载成功"] else [])
  let t := t ++ (if 0 < env.viewsCount then
      [Ev.click "page" viewsSel, Ev.shot "page" "04-teacher-students.png",
       Ev.print "   ✅ 教师端视图切换成功"]
    else [])
  (t, none)

/-- Lines 87-108: section 5, the mobile pass in a second, independently
created context, ending with `context_mobile.close()`. -/
def mobilePass (env : Env) : List Ev × Option Err :=
  let t := [Ev.print "\n5️⃣ 测试移动端响应式...", Ev.openE "context_mobile", Ev.openE "page_mobile"]
  if !env.nav_mobile_home then (t, some Err.navError) else
  let t := t ++ [Ev.nav "page_mobile" "http://localhost:3001",
                 Ev.shot "page_mobile" "05-mobile-home.png", Ev.print "   ✅ 移动端首页正常"]
  if !env.nav_mobile_parent then (t, some Err.navError) else
  let t := t ++ [Ev.nav "page_mobile" "http://localhost:3001/parent",
                 Ev.shot "page_mobile" "05-mobile-parent.png", Ev.print "   ✅ 移动端家长页正常",
                 Ev.closeE "context_mobile"]
  (t, none)

/-- Lines 110-126: section 6, the console-error check on the desktop page,
followed by `browser.close()`. -/
def consolePass (env : Env) : List Ev × Option Err :=
  let t := [Ev.print "\n6️⃣ 检查控制台错误..."]
  if !env.nav_console then (t, some Err.navError) else
  let t := t ++ [Ev.nav "page" "http://localhost:3001"]
  let ce := critical_errors env
  let t := t ++ (if ce.length = 0 then [Ev.print "   ✅ 无关键控制台错误"]
    else Ev.print ("   ⚠️ 发现 " ++ toString ce.length ++ " 个控制台错误")
      :: (ce.take 3).map (fun err => Ev.print ("      - " ++ err.take 100 ++ "...")))
  (t ++ [Ev.closeE "browser"], none)

/-- Python's `"=" * 60`. -/
def eqLine : String := String.mk (List.replicate 60 '=')

/-- The screenshot files written by the events so far, in order. -/
def shotsOf (t : List Ev) : List String :=
  t.filterMap (fun e => match e with | Ev.shot _ f => some f | _ => none)

/-- The contents of the `screenshots/` directory after the events `t`,
starting from its initial contents `init`. -/
def fsAfter (init : List String) (t : List Ev) : List String :=
  (shotsOf t).foldl fsWrite init

/-- Lines 131-134: `sorted(os.listdir('screenshots'))` filtered by
`.endswith('.png')` — the file list the final summary enumerates, given the
events performed so far. -/
def summaryFiles (env : Env) (sofar : List Ev) : List String :=
  (sortFiles (fsAfter env.preexisting sofar)).filter (fun f => pyEndsWith f ".png")

/-- Lines 128-134: the closing banner and the summary enumeration. -/
def epilogue (env : Env) (sofar : List Ev) : List Ev :=
  [Ev.print ("\n" ++ eqLine), Ev.print "🎉 UI 测试完成！", Ev.print eqLine,
   Ev.print "\n📸 截图已保存到 screenshots/ 目录:"]
  ++ (summaryFiles env sofar).map (fun f => Ev.print ("   - " ++ f))

/-- The whole of `test_meetmind` (lines 9-136).  The final
`Ev.closeE "playwright"` on every branch is the exit of the
`with sync_playwright() as p:` block, which runs on normal return and on an
uncaught exception alike and stops the Playwright driver. -/
def run (env : Env) : List Ev × Except Err Bool :=
  match desktopPass env with
  | (t1, some e) => (prologue ++ t1 ++ [Ev.closeE "playwright"], Except.error e)
  | (t1, none) =>
    match mobilePass env with
    | (t2, some e) => (prologue ++ t1 ++ t2 ++ [Ev.closeE "playwright"], Except.error e)
    | (t2, none) =>
      match consolePass env with
      | (t3, some e) => (prologue ++ t1 ++ t2 ++ t3 ++ [Ev.closeE "playwright"], Except.error e)
      | (t3, none) =>
        (prologue ++ t1 ++ t2 ++ t3 ++ epilogue env (t1 ++ t2 ++ t3)
           ++ [Ev.closeE "playwright"], Except.ok true)

/-! ### Trace observations -/

/-- The lines printed to standard output, in order. -/
def printsOf : List Ev → List String
  | [] => []
  | Ev.print l :: t => l :: printsOf t
  | _ :: t => printsOf t

/-- The navigations performed, as (session, url) pairs in order. -/
def navsOf : List Ev → List (String × String)
  | [] => []
  | Ev.nav s u :: t => (s, u) :: navsOf t
  | _ :: t => navsOf t

/-- The clicks performed, as (session, selector) pairs in order. -/
def clicksOf : List Ev → List (String × String)
  | [] => []
  | Ev.click s sel :: t => (s, sel) :: clicksOf t
  | _ :: t => clicksOf t

/-- The sessions opened during the events. -/
def openedOf : List Ev → List String
  | [] => []
  | Ev.openE s :: t => s :: openedOf t
  | _ :: t => openedOf t

/-- The screenshots taken on a given session, in order. -/
def shotsBy (s : String) : List Ev → List String
  | [] => []
  | Ev.shot pg f :: t => if pg = s then f :: shotsBy s t else shotsBy s t
  | _ :: t => shotsBy s t

/-- The session an event acts on, if any. -/
def sessionOf : Ev → Option String
  | Ev.openE s => some s
  | Ev.closeE s => some s
  | Ev.nav s _ => some s
  | Ev.click s _ => some s
  | Ev.shot s _ => some s
  | Ev.print _ => none

/-- Closing a session closes everything scoped beneath it: `browser.close()`
closes the browser's contexts and their pages, `context_mobile.close()`
closes its page, and stopping the Playwright driver (the exit of the `with`
block) tears down every object it created. -/
def closesOf : String → List String
  | "playwright" => ["playwright", "browser", "context", "page", "context_mobile", "page_mobile"]
  | "browser" => ["browser", "context", "page", "context_mobile", "page_mobile"]
  | "context_mobile" => ["context_mobile", "page_mobile"]
  | s => [s]

/-- The sessions closed (directly or by closing an enclosing scope) during
the events. -/
def closedOf : List Ev → List String
  | [] => []
  | Ev.closeE c :: t => closesOf c ++ closedOf t
  | _ :: t => closedOf t

/-- All six navigations succeed. -/
def allNavs (env : Env) : Bool :=
  env.nav_home && env.nav_parent && env.nav_teacher &&
  env.nav_mobile_home && env.nav_mobile_parent && env.nav_console

/-- The six navigation flags in the order the script issues its `goto`s. -/
def navFlags (env : Env) : List Bool :=
  [env.nav_home, env.nav_parent, env.nav_teacher,
   env.nav_mobile_home, env.nav_mobile_parent, env.nav_console]

/-- The six navigation targets, in `goto` order (lines 22, 49, 69, 96, 102, 114). -/
def navTargets : List String :=
  ["http://localhost:3001", "http://localhost:3001/parent", "http://localhost:3001/teacher",
   "http://localhost:3001", "http://localhost:3001/parent", "http://localhost:3001"]

/-- Index of the first failing navigation (6 when all six succeed). -/
def firstNavFail (env : Env) : Nat :=
  if env.nav_home = false then 0
  else if env.nav_parent = false then 1
  else if env.nav_teacher = false then 2
  else if env.nav_mobile_home = false then 3
  else if env.nav_mobile_parent = false then 4
  else if env.nav_console = false then 5
  else 6

/-- The screenshots the script has written by the time it attempts its
`k`-th navigation: everything captured strictly before that `goto`. -/
def shotsUpTo (env : Env) (k : Nat) : List String :=
  (if 1 ≤ k then
    ["01-home-record.png"] ++ (if 0 < env.reviewTabCount then ["02-home-review.png"] else [])
   else [])
  ++ (if 2 ≤ k then
    ["03-parent.png"] ++ (if 0 < env.tabsCount then ["03-parent-confusion.png"] else [])
   else [])
  ++ (if 3 ≤ k then
    ["04-teacher.png"] ++ (if 0 < env.viewsCount then ["04-teacher-students.png"] else [])
   else [])
  ++ (if 4 ≤ k then ["05-mobile-home.png"] else [])
  ++ (if 5 ≤ k then ["05-mobile-parent.png"] else [])

/-- The script's capture steps, in step order: each entry is the filename of
one `page.screenshot` / `page_mobile.screenshot` call in the source, in
program order (lines 24, 42, 52, 64, 72, 84, 98, 105). -/
def captureSteps : List String :=
  ["01-home-record.png", "02-home-review.png", "03-parent.png", "03-parent-confusion.png",
   "04-teacher.png", "04-teacher-students.png", "05-mobile-home.png", "05-mobile-parent.png"]

/-- The screenshots a run with all navigations succeeding writes, in order:
the five unconditional captures plus each interaction capture whose
selector matched. -/
def allShots (env : Env) : List String :=
  shotsUpTo env 6

/-- The events of the three page-visiting sections, in order, when stitched
together by `run`. -/
def bodyTrace (env : Env) : List Ev :=
  (desktopPass env).1 ++ (mobilePass env).1 ++ (consolePass env).1

/-- The file list the run's final summary enumerates (the argument the
success branch of `run` passes to `epilogue`). -/
def runSummary (env : Env) : List String :=
  summaryFiles env (bodyTrace env)

/-! ### The API script `src/test_api.py` -/

/-- JSON values, the payloads and responses of the API check.  Numbers are
modelled as integers (the script's payload uses only integers; a response
with fractional numbers is outside this model). -/
inductive Json where
  | null
  | bool (b : Bool)
  | num (n : Int)
  | str (s : String)
  | arr (xs : List Json)
  | obj (fields : List (String × Json))

/-- Two spaces of indentation per level, as `json.dumps(..., indent=2)`. -/
def jPad (ind : Nat) : String :=
  String.mk (List.replicate ind ' ')

/-- Double-quote a JSON string (escape sequences inside the string are
elided by the model). -/
def jQuote (s : String) : String :=
  "\"" ++ s ++ "\""

mutual

/-- Python's `json.dumps(v, ensure_ascii=False, indent=2)`, rendering the
value at indentation level `ind`. -/
def jDump (ind : Nat) : Json → String
  | Json.null => "null"
  | Json.bool true => "true"
  | Json.bool false => "false"
  | Json.num n => toString n
  | Json.str s => jQuote s
  | Json.arr [] => "[]"
  | Json.arr (x :: xs) =>
    "[\n" ++ jDumpArr (ind + 2) (x :: xs) ++ "\n" ++ jPad ind ++ "]"
  | Json.obj [] => "\x7b\x7d"
  | Json.obj (f :: fs) =>
    "\x7b\n" ++ jDumpObj (ind + 2) (f :: fs) ++ "\n" ++ jPad ind ++ "\x7d"

/-- Array elements, one per line, comma-separated. -/
def jDumpArr (ind : Nat) : List Json → String
  | [] => ""
  | [x] => jPad ind ++ jDump ind x
  | x :: y :: xs => jPad ind ++ jDump ind x ++ ",\n" ++ jDumpArr ind (y :: xs)

/-- Object members, one per line, comma-separated. -/
def jDumpObj (ind : Nat) : List (String × Json) → String
  | [] => ""
  | [(k, v)] => jPad ind ++ jQuote k ++ ": " ++ jDump ind v
  | (k, v) :: f :: fs => jPad ind ++ jQuote k ++ ": " ++ jDump ind v ++ ",\n" ++ jDumpObj ind (f :: fs)

end

/-- Top-level `json.dumps(v, ensure_ascii=False, indent=2)`. -/
def jsonDumps (v : Json) : String :=
  jDump 0 v

/-- Lines 8-14 of `test_api.py`: the five hard-coded transcript segments. -/
def demo_transcript : List Json :=
  [Json.obj [("id", Json.str "s1"), ("text", Json.str "今天我们来学习二次函数的图像"),
             ("startMs", Json.num 0), ("endMs", Json.num 15000)],
   Json.obj [("id", Json.str "s2"), ("text", Json.str "二次函数的一般形式是 y = ax² + bx + c"),
             ("startMs", Json.num 15000), ("endMs", Json.num 35000)],
   Json.obj [("id", Json.str "s3"), ("text", Json.str "其中 a 不等于 0，a 的正负决定了抛物线的开口方向"),
             ("startMs", Json.num 35000), ("endMs", Json.num 60000)],
   Json.obj [("id", Json.str "s4"), ("text", Json.str "当 a 大于 0 时，抛物线开口向上"),
             ("startMs", Json.num 60000), ("endMs", Json.num 85000)],
   Json.obj [("id", Json.str "s5"), ("text", Json.str "当 a 小于 0 时，抛物线开口向下"),
             ("startMs", Json.num 85000), ("endMs", Json.num 110000)]]

/-- Lines 16-24: the request payload. -/
def payload : Json :=
  Json.obj [("sessionId", Json.str "test-session"),
            ("transcript", Json.arr demo_transcript),
            ("mode", Json.str "smart"),
            ("sessionInfo", Json.obj [("subject", Json.str "数学"), ("topic", Json.str "二次函数")])]

/-- What `requests.post` returns for the one request the script sends: the
HTTP status code and the body.  `body = some j` when the body is valid JSON
parsing to `j`; `body = none` when the body is empty or not valid JSON, in
which case `response.json()` raises a JSON decode error. -/
structure HttpResponse where
  status : Nat
  body : Option Json

/-- The uncaught exception of the API script in this model. -/
inductive ApiErr where
  | jsonDecodeError
  deriving DecidableEq, Repr

/-- The module body of `src/test_api.py` (lines 26-31), given the response
of the reachable endpoint: the lines printed in order, and the result
(`Except.error` models the uncaught exception `response.json()` raises on a
body that is not valid JSON). -/
def test_api_run (resp : HttpResponse) : List String × Except ApiErr Unit :=
  let out := ["Testing generate-topics API with smart mode...",
              "Transcript length: " ++ toString demo_transcript.length,
              "Status: " ++ toString resp.status]
  match resp.body with
  | none => (out, Except.error ApiErr.jsonDecodeError)
  | some j => (out ++ ["Response: " ++ jsonDumps j], Except.ok ())

/-! ### Concrete environments for witnesses and counterexamples -/

/-- A healthy environment: every navigation succeeds, every selector
matches, no console messages, empty screenshots directory. -/
def envOk : Env :=
  { title := "MeetMind", meetmindTextCount := 1, recordBtnCount := 1, reviewTabCount := 1,
    parentTitleCount := 1, tabsCount := 1, teacherTitleCount := 1, viewsCount := 1,
    nav_home := true, nav_parent := true, nav_teacher := true,
    nav_mobile_home := true, nav_mobile_parent := true, nav_console := true,
    consoleMsgs := [], preexisting := [] }

/-! ### Helper lemmas about the trace observations -/

theorem allNavs_true {env : Env} (h : allNavs env = true) :
    env.nav_home = true ∧ env.nav_parent = true ∧ env.nav_teacher = true ∧
    env.nav_mobile_home = true ∧ env.nav_mobile_parent = true ∧ env.nav_console = true := by
  simp only [allNavs, Bool.and_eq_true] at h
  tauto

theorem dp_none {env : Env} (h1 : env.nav_home = true) (h2 : env.nav_parent = true)
    (h3 : env.nav_teacher = true) : (desktopPass env).2 = none := by
  simp [desktopPass, h1, h2, h3, assertCond]

theorem mp_none {env : Env} (h4 : env.nav_mobile_home = true)
    (h5 : env.nav_mobile_parent = true) : (mobilePass env).2 = none := by
  simp [mobilePass, h4, h5]

theorem cp_none {env : Env} (h6 : env.nav_console = true) : (consolePass env).2 = none := by
  simp [consolePass, h6]

theorem run_trace {env : Env} (h : allNavs env = true) :
    (run env).1 = prologue ++ bodyTrace env ++ epilogue env (bodyTrace env)
      ++ [Ev.closeE "playwright"] ∧ (run env).2 = Except.ok true := by
  obtain ⟨h1, h2, h3, h4, h5, h6⟩ := allNavs_true h
  have hd := dp_none h1 h2 h3
  have hm := mp_none h4 h5
  have hc := cp_none h6
  unfold run bodyTrace
  rcases hdp : desktopPass env with ⟨t1, o1⟩
  rcases hmp : mobilePass env with ⟨t2, o2⟩
  rcases hcp : consolePass env with ⟨t3, o3⟩
  rw [hdp] at hd; rw [hmp] at hm; rw [hcp] at hc
  simp only at hd hm hc
  subst hd hm hc
  simp [List.append_assoc]

@[simp] theorem shotsOf_append (a b : List Ev) : shotsOf (a ++ b) = shotsOf a ++ shotsOf b := by
  simp [shotsOf]

@[simp] theorem shotsOf_ite (c : Prop) [Decidable c] (a b : List Ev) :
    shotsOf (if c then a else b) = if c then shotsOf a else shotsOf b :=
  apply_ite shotsOf c a b

@[simp] theorem shotsOf_nil : shotsOf [] = [] := rfl

@[simp] theorem shotsOf_print (l : String) (t : List Ev) :
    shotsOf (Ev.print l :: t) = shotsOf t := rfl

@[simp] theorem shotsOf_click (s sel : String) (t : List Ev) :
    shotsOf (Ev.click s sel :: t) = shotsOf t := rfl

@[simp] theorem shotsOf_nav (s u : String) (t : List Ev) :
    shotsOf (Ev.nav s u :: t) = shotsOf t := rfl

@[simp] theorem shotsOf_openE (s : String) (t : List Ev) :
    shotsOf (Ev.openE s :: t) = shotsOf t := rfl

@[simp] theorem shotsOf_closeE (s : String) (t : List Ev) :
    shotsOf (Ev.closeE s :: t) = shotsOf t := rfl

@[simp] theorem shotsOf_shot (s f : String) (t : List Ev) :
    shotsOf (Ev.shot s f :: t) = f :: shotsOf t := rfl

@[simp] theorem shotsOf_printMap {α : Type} (f : α → String) (l : List α) :
    shotsOf (l.map (fun x => Ev.print (f x))) = [] := by
  induction l with
  | nil => rfl
  | cons x t ih => simpa using ih

@[simp] theorem shotsOf_take_printMap {α : Type} (n : Nat) (f : α → String) (l : List α) :
    shotsOf (List.take n (List.map (fun x => Ev.print (f x)) l)) = [] := by
  rw [← List.map_take]
  exact shotsOf_printMap f (l.take n)

theorem dp_shots {env : Env} (h1 : env.nav_home = true) (h2 : env.nav_parent = true)
    (h3 : env.nav_teacher = true) :
    shotsOf (desktopPass env).1 =
      ["01-home-record.png"] ++ (if 0 < env.reviewTabCount then ["02-home-review.png"] else [])
      ++ ["03-parent.png"] ++ (if 0 < env.tabsCount then ["03-parent-confusion.png"] else [])
      ++ ["04-teacher.png"] ++ (if 0 < env.viewsCount then ["04-teacher-students.png"] else []) := by
  unfold desktopPass
  simp only [h1, h2, h3, assertCond]
  simp only [Bool.not_true, Bool.or_true, if_false, Bool.false_eq_true, ite_false]
  simp only [shotsOf_append, shotsOf_ite, shotsOf_print, shotsOf_click, shotsOf_shot,
    shotsOf_nav, shotsOf_openE, shotsOf_closeE, shotsOf_nil]
  simp

theorem mp_shots {env : Env} (h4 : env.nav_mobile_home = true)
    (h5 : env.nav_mobile_parent = true) :
    shotsOf (mobilePass env).1 = ["05-mobile-home.png", "05-mobile-parent.png"] := by
  simp [mobilePass, h4, h5]

theorem cp_shots (env : Env) : shotsOf (consolePass env).1 = [] := by
  by_cases h6 : env.nav_console = true <;> simp [consolePass, h6]

theorem prologue_shots : shotsOf prologue = [] := rfl

theorem epilogue_shots (env : Env) (sofar : List Ev) : shotsOf (epilogue env sofar) = [] := by
  simp [epilogue]

theorem shots_body {env : Env} (h : allNavs env = true) :
    shotsOf (bodyTrace env) = allShots env := by
  obtain ⟨h1, h2, h3, h4, h5, h6⟩ := allNavs_true h
  simp [bodyTrace, dp_shots h1 h2 h3, mp_shots h4 h5, cp_shots, allShots, shotsUpTo]

theorem shots_run {env : Env} (h : allNavs env = true) :
    shotsOf (run env).1 = allShots env := by
  rw [(run_trace h).1]
  have hb := shots_body h
  simp only [shotsOf_append, prologue_shots, epilogue_shots, hb]
  simp

/-! ### Computation rules for the trace observations -/

@[simp] theorem printsOf_append (a b : List Ev) : printsOf (a ++ b) = printsOf a ++ printsOf b := by
  induction a with
  | nil => simp [printsOf]
  | cons e t ih => cases e <;> simp [printsOf, ih]

@[simp] theorem printsOf_ite (c : Prop) [Decidable c] (a b : List Ev) :
    printsOf (if c then a else b) = if c then printsOf a else printsOf b :=
  apply_ite printsOf c a b

@[simp] theorem printsOf_printMap {α : Type} (f : α → String) (l : List α) :
    printsOf (l.map (fun x => Ev.print (f x))) = l.map f := by
  induction l with
  | nil => rfl
  | cons x t ih => simp [printsOf, ih]

@[simp] theorem printsOf_take_printMap {α : Type} (n : Nat) (f : α → String) (l : List α) :
    printsOf (List.take n (List.map (fun x => Ev.print (f x)) l)) = List.take n (l.map f) := by
  rw [← List.map_take, printsOf_printMap, List.map_take]

@[simp] theorem navsOf_append (a b : List Ev) : navsOf (a ++ b) = navsOf a ++ navsOf b := by
  induction a with
  | nil => simp [navsOf]
  | cons e t ih => cases e <;> simp [navsOf, ih]

@[simp] theorem navsOf_ite (c : Prop) [Decidable c] (a b : List Ev) :
    navsOf (if c then a else b) = if c then navsOf a else navsOf b :=
  apply_ite navsOf c a b

@[simp] theorem navsOf_printMap {α : Type} (f : α → String) (l : List α) :
    navsOf (l.map (fun x => Ev.print (f x))) = [] := by
  induction l with
  | nil => rfl
  | cons x t ih => simp [navsOf, ih]

@[simp] theorem navsOf_take_printMap {α : Type} (n : Nat) (f : α → String) (l : List α) :
    navsOf (List.take n (List.map (fun x => Ev.print (f x)) l)) = [] := by
  rw [← List.map_take, navsOf_printMap]

@[simp] theorem clicksOf_append (a b : List Ev) : clicksOf (a ++ b) = clicksOf a ++ clicksOf b := by
  induction a with
  | nil => simp [clicksOf]
  | cons e t ih => cases e <;> simp [clicksOf, ih]

@[simp] theorem clicksOf_ite (c : Prop) [Decidable c] (a b : List Ev) :
    clicksOf (if c then a else b) = if c then clicksOf a else clicksOf b :=
  apply_ite clicksOf c a b

@[simp] theorem clicksOf_printMap {α : Type} (f : α → String) (l : List α) :
    clicksOf (l.map (fun x => Ev.print (f x))) = [] := by
  induction l with
  | nil => rfl
  | cons x t ih => simp [clicksOf, ih]

@[simp] theorem clicksOf_take_printMap {α : Type} (n : Nat) (f : α → String) (l : List α) :
    clicksOf (List.take n (List.map (fun x => Ev.print (f x)) l)) = [] := by
  rw [← List.map_take, clicksOf_printMap]

@[simp] theorem openedOf_append (a b : List Ev) : openedOf (a ++ b) = openedOf a ++ openedOf b := by
  induction a with
  | nil => simp [openedOf]
  | cons e t ih => cases e <;> simp [openedOf, ih]

@[simp] theorem openedOf_ite (c : Prop) [Decidable c] (a b : List Ev) :
    openedOf (if c then a else b) = if c then openedOf a else openedOf b :=
  apply_ite openedOf c a b

@[simp] theorem openedOf_printMap {α : Type} (f : α → String) (l : List α) :
    openedOf (l.map (fun x => Ev.print (f x))) = [] := by
  induction l with
  | nil => rfl
  | cons x t ih => simp [openedOf, ih]

@[simp] theorem openedOf_take_printMap {α : Type} (n : Nat) (f : α → String) (l : List α) :
    openedOf (List.take n (List.map (fun x => Ev.print (f x)) l)) = [] := by
  rw [← List.map_take, openedOf_printMap]

@[simp] theorem closedOf_append (a b : List Ev) : closedOf (a ++ b) = closedOf a ++ closedOf b := by
  induction a with
  | nil => simp [closedOf]
  | cons e t ih => cases e <;> simp [closedOf, ih]

@[simp] theorem closedOf_ite (c : Prop) [Decidable c] (a b : List Ev) :
    closedOf (if c then a else b) = if c then closedOf a else closedOf b :=
  apply_ite closedOf c a b

@[simp] theorem closedOf_printMap {α : Type} (f : α → String) (l : List α) :
    closedOf (l.map (fun x => Ev.print (f x))) = [] := by
  induction l with
  | nil => rfl
  | cons x t ih => simp [closedOf, ih]

@[simp] theorem closedOf_take_printMap {α : Type} (n : Nat) (f : α → String) (l : List α) :
    closedOf (List.take n (List.map (fun x => Ev.print (f x)) l)) = [] := by
  rw [← List.map_take, closedOf_printMap]

@[simp] theorem shotsBy_append (s : String) (a b : List Ev) :
    shotsBy s (a ++ b) = shotsBy s a ++ shotsBy s b := by
  induction a with
  | nil => simp [shotsBy]
  | cons e t ih =>
    cases e <;> simp [shotsBy, ih]
    split <;> simp

@[simp] theorem shotsBy_ite (s : String) (c : Prop) [Decidable c] (a b : List Ev) :
    shotsBy s (if c then a else b) = if c then shotsBy s a else shotsBy s b :=
  apply_ite (shotsBy s) c a b

@[simp] theorem shotsBy_printMap {α : Type} (s : String) (f : α → String) (l : List α) :
    shotsBy s (l.map (fun x => Ev.print (f x))) = [] := by
  induction l with
  | nil => rfl
  | cons x t ih => simp [shotsBy, ih]

@[simp] theorem shotsBy_take_printMap {α : Type} (s : String) (n : Nat) (f : α → String)
    (l : List α) :
    shotsBy s (List.take n (List.map (fun x => Ev.print (f x)) l)) = [] := by
  rw [← List.map_take, shotsBy_printMap]

/-! ### Segment-level facts -/

theorem dp_navs {env : Env} (h1 : env.nav_home = true) (h2 : env.nav_parent = true)
    (h3 : env.nav_teacher = true) :
    navsOf (desktopPass env).1 =
      [("page", "http://localhost:3001"), ("page", "http://localhost:3001/parent"),
       ("page", "http://localhost:3001/teacher")] := by
  unfold desktopPass
  simp only [h1, h2, h3, assertCond]
  simp only [Bool.not_true, Bool.or_true, if_false, Bool.false_eq_true, ite_false]
  simp [navsOf]

theorem mp_navs {env : Env} (h4 : env.nav_mobile_home = true)
    (h5 : env.nav_mobile_parent = true) :
    navsOf (mobilePass env).1 =
      [("page_mobile", "http://localhost:3001"), ("page_mobile", "http://localhost:3001/parent")] := by
  simp [mobilePass, h4, h5, navsOf]

theorem cp_navs {env : Env} (h6 : env.nav_console = true) :
    navsOf (consolePass env).1 = [("page", "http://localhost:3001")] := by
  simp [consolePass, h6, navsOf]

theorem prologue_navs : navsOf prologue = [] := rfl

theorem epilogue_navs (env : Env) (sofar : List Ev) : navsOf (epilogue env sofar) = [] := by
  simp [epilogue, navsOf]

theorem navs_run {env : Env} (h : allNavs env = true) :
    navsOf (run env).1 =
      [("page", "http://localhost:3001"), ("page", "http://localhost:3001/parent"),
       ("page", "http://localhost:3001/teacher"), ("page_mobile", "http://localhost:3001"),
       ("page_mobile", "http://localhost:3001/parent"), ("page", "http://localhost:3001")] := by
  obtain ⟨h1, h2, h3, h4, h5, h6⟩ := allNavs_true h
  rw [(run_trace h).1]
  simp [bodyTrace, dp_navs h1 h2 h3, mp_navs h4 h5, cp_navs h6, prologue_navs, epilogue_navs,
    navsOf]

theorem dp_clicks {env : Env} (h1 : env.nav_home = true) (h2 : env.nav_parent = true)
    (h3 : env.nav_teacher = true) :
    clicksOf (desktopPass env).1 =
      (if 0 < env.reviewTabCount then [("page", reviewSel)] else [])
      ++ (if 0 < env.tabsCount then [("page", tabsSel)] else [])
      ++ (if 0 < env.viewsCount then [("page", viewsSel)] else []) := by
  unfold desktopPass
  simp only [h1, h2, h3, assertCond]
  simp only [Bool.not_true, Bool.or_true, if_false, Bool.false_eq_true, ite_false]
  simp [clicksOf]

theorem mp_clicks (env : Env) : clicksOf (mobilePass env).1 = [] := by
  by_cases h4 : env.nav_mobile_home = true <;> by_cases h5 : env.nav_mobile_parent = true <;>
    simp [mobilePass, h4, h5, clicksOf]

theorem cp_clicks (env : Env) : clicksOf (consolePass env).1 = [] := by
  by_cases h6 : env.nav_console = true <;> simp [consolePass, h6, clicksOf]

theorem epilogue_clicks (env : Env) (sofar : List Ev) : clicksOf (epilogue env sofar) = [] := by
  simp [epilogue, clicksOf]

theorem clicks_run {env : Env} (h : allNavs env = true) :
    clicksOf (run env).1 =
      (if 0 < env.reviewTabCount then [("page", reviewSel)] else [])
      ++ (if 0 < env.tabsCount then [("page", tabsSel)] else [])
      ++ (if 0 < env.viewsCount then [("page", viewsSel)] else []) := by
  obtain ⟨h1, h2, h3, _, _, _⟩ := allNavs_true h
  rw [(run_trace h).1]
  simp [bodyTrace, dp_clicks h1 h2 h3, mp_clicks, cp_clicks, epilogue_clicks, prologue, clicksOf]

theorem dp_warn_mem {env : Env} (h1 : env.nav_home = true) (h2 : env.nav_parent = true)
    (h3 : env.nav_teacher = true) (hr : env.reviewTabCount = 0) :
    "   ⚠️ 未找到复习模式切换按钮" ∈ printsOf (desktopPass env).1 := by
  unfold desktopPass
  simp only [h1, h2, h3, assertCond]
  simp only [Bool.not_true, Bool.or_true, if_false, Bool.false_eq_true, ite_false]
  simp [printsOf, hr]

theorem dp_opened (env : Env) : openedOf (desktopPass env).1 = [] := by
  by_cases h1 : env.nav_home = true <;> by_cases h2 : env.nav_parent = true <;>
    by_cases h3 : env.nav_teacher = true <;>
    simp [desktopPass, assertCond, h1, h2, h3, openedOf]

theorem mp_opened (env : Env) : openedOf (mobilePass env).1 = ["context_mobile", "page_mobile"] := by
  by_cases h4 : env.nav_mobile_home = true <;> by_cases h5 : env.nav_mobile_parent = true <;>
    simp [mobilePass, h4, h5, openedOf]

theorem cp_opened (env : Env) : openedOf (consolePass env).1 = [] := by
  by_cases h6 : env.nav_console = true <;> simp [consolePass, h6, openedOf]

theorem epilogue_opened (env : Env) (sofar : List Ev) : openedOf (epilogue env sofar) = [] := by
  simp [epilogue, openedOf]

/-! ### Outcome and structure of the whole run -/

theorem dp_snd (env : Env) :
    (desktopPass env).2 = none ∨ (desktopPass env).2 = some Err.navError := by
  by_cases h1 : env.nav_home = true <;> by_cases h2 : env.nav_parent = true <;>
    by_cases h3 : env.nav_teacher = true <;> simp [desktopPass, assertCond, h1, h2, h3]

theorem mp_snd (env : Env) :
    (mobilePass env).2 = none ∨ (mobilePass env).2 = some Err.navError := by
  by_cases h4 : env.nav_mobile_home = true <;> by_cases h5 : env.nav_mobile_parent = true <;>
    simp [mobilePass, h4, h5]

theorem cp_snd (env : Env) :
    (consolePass env).2 = none ∨ (consolePass env).2 = some Err.navError := by
  by_cases h6 : env.nav_console = true <;> simp [consolePass, h6]

theorem run_snd_cases (env : Env) :
    (run env).2 = Except.ok true ∨ (run env).2 = Except.error Err.navError := by
  have hd := dp_snd env
  have hm := mp_snd env
  have hc := cp_snd env
  unfold run
  split
  · simp_all
  · split
    · simp_all
    · split <;> simp_all

theorem run_ends_close (env : Env) :
    ∃ X, (run env).1 = X ++ [Ev.closeE "playwright"] := by
  unfold run
  split
  · exact ⟨_, rfl⟩
  · split
    · exact ⟨_, rfl⟩
    · split <;> exact ⟨_, rfl⟩

theorem openedOf_run_cases (env : Env) :
    openedOf (run env).1 = ["playwright", "browser", "context", "page"] ∨
    openedOf (run env).1 =
      ["playwright", "browser", "context", "page", "context_mobile", "page_mobile"] := by
  have hd := dp_opened env
  have hm := mp_opened env
  have hc := cp_opened env
  unfold run
  split
  · simp_all [prologue, openedOf]
  · split
    · simp_all [prologue, openedOf]
    · split <;> simp_all [prologue, openedOf, epilogue_opened]

/-! ### Membership in the directory model and the sorted summary -/

theorem mem_insertSorted (a f : String) (l : List String) :
    a ∈ insertSorted f l ↔ a = f ∨ a ∈ l := by
  induction l with
  | nil => simp [insertSorted]
  | cons g t ih =>
    by_cases h : pyLt f g = true <;> simp [insertSorted, h, ih]
    tauto

theorem mem_sortFiles (a : String) (l : List String) : a ∈ sortFiles l ↔ a ∈ l := by
  induction l with
  | nil => simp [sortFiles]
  | cons f t ih => simp [sortFiles, mem_insertSorted, ih]

theorem mem_fsWrite (a f : String) (fs : List String) :
    a ∈ fsWrite fs f ↔ a ∈ fs ∨ a = f := by
  by_cases h : f ∈ fs <;> simp [fsWrite, h]
  intro ha
  rw [ha] at *
  tauto

theorem mem_foldl_fsWrite (a : String) (l : List String) :
    ∀ init, a ∈ l.foldl fsWrite init ↔ a ∈ init ∨ a ∈ l := by
  induction l with
  | nil => simp
  | cons f t ih =>
    intro init
    simp [List.foldl_cons, ih, mem_fsWrite]
    tauto

theorem mem_fsAfter (a : String) (init : List String) (t : List Ev) :
    a ∈ fsAfter init t ↔ a ∈ init ∨ a ∈ shotsOf t := by
  simp [fsAfter, mem_foldl_fsWrite]

theorem mem_summaryFiles (f : String) (env : Env) (sofar : List Ev) :
    f ∈ summaryFiles env sofar ↔
      pyEndsWith f ".png" = true ∧ (f ∈ env.preexisting ∨ f ∈ shotsOf sofar) := by
  simp [summaryFiles, List.mem_filter, mem_sortFiles, mem_fsAfter]
  tauto

/-! ### Facts about the produced screenshot set -/

theorem capture_png : ∀ f ∈ captureSteps, pyEndsWith f ".png" = true := by decide

theorem allShots_sub (env : Env) : ∀ f ∈ allShots env, f ∈ captureSteps := by
  by_cases hr : 0 < env.reviewTabCount <;> by_cases ht : 0 < env.tabsCount <;>
    by_cases hv : 0 < env.viewsCount <;>
    simp [allShots, shotsUpTo, hr, ht, hv] <;> decide

theorem allShots_png (env : Env) : ∀ f ∈ allShots env, pyEndsWith f ".png" = true :=
  fun f hf => capture_png f (allShots_sub env f hf)

theorem allShots_nodup (env : Env) : (allShots env).Nodup := by
  by_cases hr : 0 < env.reviewTabCount <;> by_cases ht : 0 < env.tabsCount <;>
    by_cases hv : 0 < env.viewsCount <;>
    simp [allShots, shotsUpTo, hr, ht, hv]

theorem allShots_sublist (env : Env) : List.Sublist (allShots env) captureSteps := by
  by_cases hr : 0 < env.reviewTabCount <;> by_cases ht : 0 < env.tabsCount <;>
    by_cases hv : 0 < env.viewsCount <;>
    simp [allShots, shotsUpTo, hr, ht, hv, captureSteps]
  all_goals decide

theorem allShots_length (env : Env) :
    (allShots env).length = 5 + (if 0 < env.reviewTabCount then 1 else 0)
      + (if 0 < env.tabsCount then 1 else 0) + (if 0 < env.viewsCount then 1 else 0) := by
  by_cases hr : 0 < env.reviewTabCount <;> by_cases ht : 0 < env.tabsCount <;>
    by_cases hv : 0 < env.viewsCount <;>
    simp [allShots, shotsUpTo, hr, ht, hv]

theorem closesOf_playwright :
    closesOf "playwright" =
      ["playwright", "browser", "context", "page", "context_mobile", "page_mobile"] := rfl

/-! ### Claims -/

/-- C5: a captured console message (one the listener appended, i.e. one of
type `error`) is classified as a critical error iff its text contains the
error marker `"Error"` and does not contain the benign substring
`"favicon"` after lowercasing, so the benign exclusion is case-insensitive. -/
theorem c5_critical_classification (env : Env) (msg : String) :
    msg ∈ critical_errors env ↔
      msg ∈ capturedErrors env ∧ pyIn "Error" msg = true ∧
        pyIn "favicon" (pyLower msg) = false := by
  simp [critical_errors, List.mem_filter, isCriticalError, Bool.and_eq_true]

/-- C9: the title assertion on line 28 ends in `or True`, so its condition
is true for every environment and the run is never aborted by an assertion
failure. -/
theorem c9_assert_never_fails (env : Env) :
    assertCond env = true ∧ (run env).2 ≠ Except.error Err.assertFailed := by
  refine ⟨by simp [assertCond], ?_⟩
  rcases run_snd_cases env with h | h <;> simp [h]

/-- C10: whenever `test_meetmind` returns normally it returns `True`:
missing selectors and critical console errors never change the return
value, and no other value is ever returned. -/
theorem c10_normal_return_true (env : Env) (b : Bool)
    (h : (run env).2 = Except.ok b) : b = true := by
  rcases run_snd_cases env with h2 | h2 <;> rw [h2] at h
  · injection h with hb
    exact hb.symm
  · exact Except.noConfusion h

theorem c10_witness : true = true :=
  c10_normal_return_true envOk true (by decide)

/-- C7: on every exit path of the run — normal completion or an uncaught
exception mid-run — every browser automation session that was opened has
been closed by the time the run ends, because the `with sync_playwright()`
block's exit tears down the driver and everything it created. -/
theorem c7_sessions_closed (env : Env) :
    ∀ s, s ∈ openedOf (run env).1 → s ∈ closedOf (run env).1 := by
  intro s hs
  have hsub : s ∈ ["playwright", "browser", "context", "page", "context_mobile", "page_mobile"] := by
    rcases openedOf_run_cases env with h | h <;> rw [h] at hs
    · simp at hs ⊢
      tauto
    · exact hs
  obtain ⟨X, hX⟩ := run_ends_close env
  rw [hX, closedOf_append]
  refine List.mem_append.mpr (Or.inr ?_)
  have hcl : closedOf [Ev.closeE "playwright"] =
      ["playwright", "browser", "context", "page", "context_mobile", "page_mobile"] := rfl
  rw [hcl]
  exact hsub

theorem c7_witness :
    "browser" ∈ openedOf (run envOk).1 ∧ "browser" ∈ closedOf (run envOk).1 :=
  ⟨by decide, c7_sessions_closed envOk "browser" (by decide)⟩

/-- The environment of the C4 witness: the third navigation (to the teacher
page) fails, everything else is healthy. -/
def envNavFail : Env := { envOk with nav_teacher := false }

/-- C4: if some navigation fails (index `firstNavFail env` among the six
`goto`s), the run terminates with the navigation error: the navigations
performed are exactly the targets before the failing one, and the
screenshots written are exactly those captured before the failing step —
nothing for the failed step or any later step. -/
theorem c4_nav_failure_aborts (env : Env) (h : firstNavFail env < 6) :
    (run env).2 = Except.error Err.navError ∧
    (navsOf (run env).1).map Prod.snd = navTargets.take (firstNavFail env) ∧
    shotsOf (run env).1 = shotsUpTo env (firstNavFail env) := by
  cases h1 : env.nav_home with
  | false =>
    simp [run, desktopPass, h1, firstNavFail, navTargets, shotsUpTo, navsOf, prologue]
  | true =>
    cases h2 : env.nav_parent with
    | false =>
      simp [run, desktopPass, assertCond, h1, h2, firstNavFail, navTargets, shotsUpTo,
        navsOf, prologue]
    | true =>
      cases h3 : env.nav_teacher with
      | false =>
        simp [run, desktopPass, assertCond, h1, h2, h3, firstNavFail, navTargets, shotsUpTo,
          navsOf, prologue]
      | true =>
        cases h4 : env.nav_mobile_home with
        | false =>
          simp [run, desktopPass, mobilePass, assertCond, h1, h2, h3, h4, firstNavFail,
            navTargets, shotsUpTo, navsOf, prologue]
        | true =>
          cases h5 : env.nav_mobile_parent with
          | false =>
            simp [run, desktopPass, mobilePass, assertCond, h1, h2, h3, h4, h5, firstNavFail,
              navTargets, shotsUpTo, navsOf, prologue]
          | true =>
            cases h6 : env.nav_console with
            | false =>
              simp [run, desktopPass, mobilePass, consolePass, assertCond, h1, h2, h3, h4, h5,
                h6, firstNavFail, navTargets, shotsUpTo, navsOf, prologue]
            | true =>
              simp [firstNavFail, h1, h2, h3, h4, h5, h6] at h

theorem c4_witness :
    (run envNavFail).2 = Except.error Err.navError ∧
    (navsOf (run envNavFail).1).map Prod.snd = navTargets.take (firstNavFail envNavFail) ∧
    shotsOf (run envNavFail).1 = shotsUpTo envNavFail (firstNavFail envNavFail) :=
  c4_nav_failure_aborts envNavFail (by decide)

/-- Environment where the review-tab selector matches nothing and all else
is healthy. -/
def envNoReview : Env := { envOk with reviewTabCount := 0 }

/-- Environment where every interaction selector matches nothing and all
else is healthy. -/
def envNoSels : Env := { envOk with reviewTabCount := 0, tabsCount := 0, viewsCount := 0 }

/-- C1, counterexample to the claim as stated: with the review-tab selector
matching zero elements and every navigation succeeding, the run completes
normally, but the step's screenshot `02-home-review.png` is NOT captured —
the capture sits inside the selector's `if` branch (lines 39-42), so a
missing selector skips the screenshot along with the interaction. -/
theorem c1_counterexample :
    allNavs envNoReview = true ∧ envNoReview.reviewTabCount = 0 ∧
    (run envNoReview).2 = Except.ok true ∧
    "02-home-review.png" ∉ shotsOf (run envNoReview).1 := by decide

/-- C1 as amended: when an interaction selector matches zero elements the
interaction is not attempted and its screenshot is skipped (only the
review-tab check prints a soft warning; the tab and view checks skip
silently), and the run still performs all six navigations and completes
normally — a missing selector never aborts the run. -/
theorem c1_missing_selector (env : Env) (h : allNavs env = true) :
    (run env).2 = Except.ok true ∧
    (navsOf (run env).1).map Prod.snd = navTargets ∧
    (env.reviewTabCount = 0 →
      "   ⚠️ 未找到复习模式切换按钮" ∈ printsOf (run env).1 ∧
      "02-home-review.png" ∉ shotsOf (run env).1 ∧
      ("page", reviewSel) ∉ clicksOf (run env).1) ∧
    (env.tabsCount = 0 →
      "03-parent-confusion.png" ∉ shotsOf (run env).1 ∧
      ("page", tabsSel) ∉ clicksOf (run env).1) ∧
    (env.viewsCount = 0 →
      "04-teacher-students.png" ∉ shotsOf (run env).1 ∧
      ("page", viewsSel) ∉ clicksOf (run env).1) := by
  obtain ⟨h1, h2, h3, h4, h5, h6⟩ := allNavs_true h
  have hts := run_trace h
  refine ⟨hts.2, ?_, ?_, ?_, ?_⟩
  · rw [navs_run h]
    simp [navTargets]
  · intro hr
    refine ⟨?_, ?_, ?_⟩
    · have hw := dp_warn_mem h1 h2 h3 hr
      rw [hts.1]
      simp [bodyTrace]
      tauto
    · rw [shots_run h]
      intro hmem
      have := allShots_sub env _ hmem
      by_cases ht : 0 < env.tabsCount <;> by_cases hv : 0 < env.viewsCount <;>
        simp [allShots, shotsUpTo, hr, ht, hv] at hmem
    · rw [clicks_run h]
      by_cases ht : 0 < env.tabsCount <;> by_cases hv : 0 < env.viewsCount <;>
        simp [hr, ht, hv, reviewSel, tabsSel, viewsSel]
  · intro htb
    constructor
    · rw [shots_run h]
      by_cases hr : 0 < env.reviewTabCount <;> by_cases hv : 0 < env.viewsCount <;>
        simp [allShots, shotsUpTo, hr, htb, hv]
    · rw [clicks_run h]
      by_cases hr : 0 < env.reviewTabCount <;> by_cases hv : 0 < env.viewsCount <;>
        simp [hr, htb, hv, reviewSel, tabsSel, viewsSel]
  · intro hv
    constructor
    · rw [shots_run h]
      by_cases hr : 0 < env.reviewTabCount <;> by_cases htb : 0 < env.tabsCount <;>
        simp [allShots, shotsUpTo, hr, htb, hv]
    · rw [clicks_run h]
      by_cases hr : 0 < env.reviewTabCount <;> by_cases htb : 0 < env.tabsCount <;>
        simp [hr, htb, hv, reviewSel, tabsSel, viewsSel]

theorem c1_witness :
    (run envNoSels).2 = Except.ok true ∧
    (navsOf (run envNoSels).1).map Prod.snd = navTargets ∧
    (envNoSels.reviewTabCount = 0 →
      "   ⚠️ 未找到复习模式切换按钮" ∈ printsOf (run envNoSels).1 ∧
      "02-home-review.png" ∉ shotsOf (run envNoSels).1 ∧
      ("page", reviewSel) ∉ clicksOf (run envNoSels).1) ∧
    (envNoSels.tabsCount = 0 →
      "03-parent-confusion.png" ∉ shotsOf (run envNoSels).1 ∧
      ("page", tabsSel) ∉ clicksOf (run envNoSels).1) ∧
    (envNoSels.viewsCount = 0 →
      "04-teacher-students.png" ∉ shotsOf (run envNoSels).1 ∧
      ("page", viewsSel) ∉ clicksOf (run envNoSels).1) :=
  c1_missing_selector envNoSels (by decide)

/-- C3, counterexample to the claim as stated: the script's capture-step
list has 8 entries, but in a run where every navigation succeeds and no
interaction selector matches, only the 5 unconditional screenshots are
produced — navigation success alone does not guarantee one file per step. -/
theorem c3_counterexample :
    allNavs envNoSels = true ∧ (run envNoSels).2 = Except.ok true ∧
    captureSteps.length = 8 ∧ (shotsOf (run envNoSels).1).length = 5 := by decide

/-- C3 as amended: when every navigation succeeds, the screenshots produced
have pairwise-distinct filenames and appear in step order (they form a
sublist of the capture-step list); one file is produced per capture step
executed — all 5 unconditional steps plus each interaction step whose
selector matched — and when every interaction selector matches, exactly one
file per capture step (8 in all) is produced. -/
theorem c3_screenshot_census (env : Env) (h : allNavs env = true) :
    (shotsOf (run env).1).Nodup ∧
    List.Sublist (shotsOf (run env).1) captureSteps ∧
    (shotsOf (run env).1).length = 5 + (if 0 < env.reviewTabCount then 1 else 0)
      + (if 0 < env.tabsCount then 1 else 0) + (if 0 < env.viewsCount then 1 else 0) ∧
    (0 < env.reviewTabCount → 0 < env.tabsCount → 0 < env.viewsCount →
      shotsOf (run env).1 = captureSteps) := by
  rw [shots_run h]
  refine ⟨allShots_nodup env, allShots_sublist env, allShots_length env, ?_⟩
  intro hr ht hv
  simp [allShots, shotsUpTo, hr, ht, hv, captureSteps]

theorem c3_witness :
    (shotsOf (run envOk).1).Nodup ∧
    List.Sublist (shotsOf (run envOk).1) captureSteps ∧
    (shotsOf (run envOk).1).length = 5 + (if 0 < envOk.reviewTabCount then 1 else 0)
      + (if 0 < envOk.tabsCount then 1 else 0) + (if 0 < envOk.viewsCount then 1 else 0) ∧
    (0 < envOk.reviewTabCount → 0 < envOk.tabsCount → 0 < envOk.viewsCount →
      shotsOf (run envOk).1 = captureSteps) :=
  c3_screenshot_census envOk (by decide)

theorem dp_shotsBy_pm {env : Env} (h1 : env.nav_home = true) (h2 : env.nav_parent = true)
    (h3 : env.nav_teacher = true) : shotsBy "page_mobile" (desktopPass env).1 = [] := by
  unfold desktopPass
  simp only [h1, h2, h3, assertCond]
  simp only [Bool.not_true, Bool.or_true, if_false, Bool.false_eq_true, ite_false]
  simp [shotsBy]

theorem dp_shotsBy_page {env : Env} (h1 : env.nav_home = true) (h2 : env.nav_parent = true)
    (h3 : env.nav_teacher = true) :
    shotsBy "page" (desktopPass env).1 =
      ["01-home-record.png"] ++ (if 0 < env.reviewTabCount then ["02-home-review.png"] else [])
      ++ ["03-parent.png"] ++ (if 0 < env.tabsCount then ["03-parent-confusion.png"] else [])
      ++ ["04-teacher.png"] ++ (if 0 < env.viewsCount then ["04-teacher-students.png"] else []) := by
  unfold desktopPass
  simp only [h1, h2, h3, assertCond]
  simp only [Bool.not_true, Bool.or_true, if_false, Bool.false_eq_true, ite_false]
  simp [shotsBy]

theorem mp_shotsBy_pm {env : Env} (h4 : env.nav_mobile_home = true)
    (h5 : env.nav_mobile_parent = true) :
    shotsBy "page_mobile" (mobilePass env).1 = ["05-mobile-home.png", "05-mobile-parent.png"] := by
  simp [mobilePass, h4, h5, shotsBy]

theorem mp_shotsBy_page (env : Env) : shotsBy "page" (mobilePass env).1 = [] := by
  by_cases h4 : env.nav_mobile_home = true <;> by_cases h5 : env.nav_mobile_parent = true <;>
    simp [mobilePass, h4, h5, shotsBy]

theorem cp_shotsBy (s : String) (env : Env) : shotsBy s (consolePass env).1 = [] := by
  by_cases h6 : env.nav_console = true <;> simp [consolePass, h6, shotsBy]

theorem epilogue_shotsBy (s : String) (env : Env) (sofar : List Ev) :
    shotsBy s (epilogue env sofar) = [] := by
  simp [epilogue, shotsBy]

theorem shotsBy_pm_run {env : Env} (h : allNavs env = true) :
    shotsBy "page_mobile" (run env).1 = ["05-mobile-home.png", "05-mobile-parent.png"] := by
  obtain ⟨h1, h2, h3, h4, h5, h6⟩ := allNavs_true h
  rw [(run_trace h).1]
  simp [bodyTrace, dp_shotsBy_pm h1 h2 h3, mp_shotsBy_pm h4 h5, cp_shotsBy,
    epilogue_shotsBy, prologue, shotsBy]

theorem shotsBy_page_run {env : Env} (h : allNavs env = true) :
    shotsBy "page" (run env).1 =
      ["01-home-record.png"] ++ (if 0 < env.reviewTabCount then ["02-home-review.png"] else [])
      ++ ["03-parent.png"] ++ (if 0 < env.tabsCount then ["03-parent-confusion.png"] else [])
      ++ ["04-teacher.png"] ++ (if 0 < env.viewsCount then ["04-teacher-students.png"] else []) := by
  obtain ⟨h1, h2, h3, h4, h5, h6⟩ := allNavs_true h
  rw [(run_trace h).1]
  simp [bodyTrace, dp_shotsBy_page h1 h2 h3, mp_shotsBy_page, cp_shotsBy,
    epilogue_shotsBy, prologue, shotsBy]

/-- The mobile pass's trace when both of its navigations succeed. -/
theorem mp_trace {env : Env} (h4 : env.nav_mobile_home = true)
    (h5 : env.nav_mobile_parent = true) :
    (mobilePass env).1 =
      [Ev.print "\n5️⃣ 测试移动端响应式...", Ev.openE "context_mobile", Ev.openE "page_mobile",
       Ev.nav "page_mobile" "http://localhost:3001", Ev.shot "page_mobile" "05-mobile-home.png",
       Ev.print "   ✅ 移动端首页正常", Ev.nav "page_mobile" "http://localhost:3001/parent",
       Ev.shot "page_mobile" "05-mobile-parent.png", Ev.print "   ✅ 移动端家长页正常",
       Ev.closeE "context_mobile"] := by
  simp [mobilePass, h4, h5]

/-- C6, counterexample to the claim as stated: in a fully healthy run the
desktop pass produces 6 screenshots but the mobile pass visits only the
home and parent targets and produces 2, so the total (8) is not double the
desktop count, and the mobile pass does not repeat the desktop step list. -/
theorem c6_counterexample :
    allNavs envOk = true ∧
    (shotsBy "page" (run envOk).1).length = 6 ∧
    (shotsBy "page_mobile" (run envOk).1).length = 2 ∧
    (shotsOf (run envOk).1).length ≠ 2 * (shotsBy "page" (run envOk).1).length := by decide

/-- C6 as amended: the mobile pass runs in a second, independently scoped
context and visits only the home and parent targets, adding exactly the two
screenshots `05-mobile-home.png` and `05-mobile-parent.png`; these collide
with no desktop filename, and no event of the mobile pass touches a desktop
session (every event acts on `context_mobile`/`page_mobile` or is a print). -/
theorem c6_mobile_independent (env : Env) (h : allNavs env = true) :
    shotsBy "page_mobile" (run env).1 = ["05-mobile-home.png", "05-mobile-parent.png"] ∧
    (∀ f, f ∈ shotsBy "page_mobile" (run env).1 → f ∉ shotsBy "page" (run env).1) ∧
    (∀ e ∈ (mobilePass env).1,
      sessionOf e = none ∨ sessionOf e = some "context_mobile" ∨
        sessionOf e = some "page_mobile") := by
  obtain ⟨h1, h2, h3, h4, h5, h6⟩ := allNavs_true h
  refine ⟨shotsBy_pm_run h, ?_, ?_⟩
  · intro f hf
    rw [shotsBy_pm_run h] at hf
    rw [shotsBy_page_run h]
    simp at hf
    rcases hf with rfl | rfl <;>
      (by_cases hr : 0 < env.reviewTabCount <;> by_cases ht : 0 < env.tabsCount <;>
        by_cases hv : 0 < env.viewsCount <;> simp [hr, ht, hv])
  · intro e he
    rw [mp_trace h4 h5] at he
    fin_cases he <;> decide

theorem c6_witness :
    shotsBy "page_mobile" (run envOk).1 = ["05-mobile-home.png", "05-mobile-parent.png"] ∧
    (∀ f, f ∈ shotsBy "page_mobile" (run envOk).1 → f ∉ shotsBy "page" (run envOk).1) ∧
    (∀ e ∈ (mobilePass envOk).1,
      sessionOf e = none ∨ sessionOf e = some "context_mobile" ∨
        sessionOf e = some "page_mobile") :=
  c6_mobile_independent envOk (by decide)

/-- Environment where a stale PNG file is already present in the
`screenshots/` directory before the run. -/
def envStale : Env := { envOk with preexisting := ["stale.png"] }

/-- C8, counterexample to the claim as stated: the summary prints
`sorted(os.listdir('screenshots'))` filtered to `.png`, so a pre-existing
`stale.png` is enumerated even though this run never produced it. -/
theorem c8_counterexample :
    allNavs envStale = true ∧ (run envStale).2 = Except.ok true ∧
    "stale.png" ∈ runSummary envStale ∧
    Ev.print "   - stale.png" ∈ (run envStale).1 ∧
    "stale.png" ∉ shotsOf (run envStale).1 := by decide

/-- C8 as amended: the final summary enumerates (in sorted order) exactly
the `.png` files present in the `screenshots/` directory at the end of the
run — the run's artifacts plus any pre-existing `.png` files; when the
directory held no `.png` file beforehand, the enumerated set is exactly the
set of artifacts produced by the run, and each summary line is printed by
the run. -/
theorem c8_summary (env : Env) (h : allNavs env = true)
    (hpre : ∀ f ∈ env.preexisting, pyEndsWith f ".png" = false) :
    (∀ f, f ∈ runSummary env ↔ f ∈ shotsOf (run env).1) ∧
    List.Sublist ((runSummary env).map (fun f => Ev.print ("   - " ++ f))) (run env).1 := by
  have hbody := shots_body h
  constructor
  · intro f
    rw [shots_run h]
    unfold runSummary
    rw [mem_summaryFiles, hbody]
    constructor
    · rintro ⟨hpng, hf | hf⟩
      · rw [hpre f hf] at hpng
        cases hpng
      · exact hf
    · intro hf
      exact ⟨allShots_png env f hf, Or.inr hf⟩
  · rw [(run_trace h).1]
    have he : epilogue env (bodyTrace env) =
        [Ev.print ("\n" ++ eqLine), Ev.print "🎉 UI 测试完成！", Ev.print eqLine,
         Ev.print "\n📸 截图已保存到 screenshots/ 目录:"]
        ++ (runSummary env).map (fun f => Ev.print ("   - " ++ f)) := rfl
    rw [he]
    exact ((List.sublist_append_right _ _).trans
      (List.sublist_append_right (prologue ++ bodyTrace env) _)).trans
      (List.sublist_append_left _ _)

theorem c8_witness :
    (∀ f, f ∈ runSummary envOk ↔ f ∈ shotsOf (run envOk).1) ∧
    List.Sublist ((runSummary envOk).map (fun f => Ev.print ("   - " ++ f))) (run envOk).1 :=
  c8_summary envOk (by decide) (by decide)

/-- C2, counterexample to the claim as stated: against a reachable endpoint
whose response has status 200 and an empty (hence not-JSON) body, the
script prints the status line and then `response.json()` raises a JSON
decode error — an exception caused purely by the empty response body. -/
theorem c2_counterexample :
    test_api_run ⟨200, none⟩ =
      (["Testing generate-topics API with smart mode...", "Transcript length: 5",
        "Status: 200"],
       Except.error ApiErr.jsonDecodeError) := rfl

/-- C2 as amended: for every response of a reachable endpoint the script
prints the banner, the transcript length and the HTTP status integer; when
the body parses as JSON — of any shape, including non-2xx statuses — it
then prints the pretty-printed body and raises no exception; when the body
is empty or not valid JSON, a JSON decode exception is raised after the
status line has been printed. -/
theorem c2_api_output (resp : HttpResponse) :
    (test_api_run resp).1.take 3 =
      ["Testing generate-topics API with smart mode...", "Transcript length: 5",
       "Status: " ++ toString resp.status] ∧
    (∀ j, resp.body = some j →
      test_api_run resp =
        (["Testing generate-topics API with smart mode...", "Transcript length: 5",
          "Status: " ++ toString resp.status, "Response: " ++ jsonDumps j],
         Except.ok ())) ∧
    (resp.body = none →
      test_api_run resp =
        (["Testing generate-topics API with smart mode...", "Transcript length: 5",
          "Status: " ++ toString resp.status],
         Except.error ApiErr.jsonDecodeError)) := by
  rcases resp with ⟨st, body⟩
  cases body <;> simp [test_api_run, demo_transcript] <;> rfl

theorem c2_witness :
    test_api_run ⟨201, some (Json.obj [])⟩ =
      (["Testing generate-topics API with smart mode...", "Transcript length: 5",
        "Status: 201", "Response: \x7b\x7d"],
       Except.ok ()) :=
  (c2_api_output ⟨201, some (Json.obj [])⟩).2.1 (Json.obj []) rfl

/-- Environment whose final navigation fires one benign console error (the
error marker with the benign substring in upper case) and one real error. -/
def envFav : Env :=
  { envOk with consoleMsgs := [⟨"error", "Error: FAVICON missing"⟩,
                               ⟨"error", "TypeError: x is undefined"⟩] }

theorem c5_witness :
    "Error: FAVICON missing" ∉ critical_errors envFav ∧
    "TypeError: x is undefined" ∈ critical_errors envFav := by
  constructor
  · intro hmem
    have hc := (c5_critical_classification envFav "Error: FAVICON missing").mp hmem
    revert hc
    decide
  · exact (c5_critical_classification envFav "TypeError: x is undefined").mpr (by decide)

theorem c9_witness :
    assertCond envOk = true ∧ (run envOk).2 ≠ Except.error Err.assertFailed :=
  c9_assert_never_fails envOk
